import Mathlib

/-!
Verification of the Reco SDK client (`src/RecoClient.ts`) against its
natural-language specification.

The client is a validation-and-dispatch layer: each operation validates its
payload synchronously (throwing a validation error before any network call)
and then issues exactly one HTTP request through an axios transport,
propagating transport failures unmodified.

Shallow embedding conventions:
- JavaScript strings are Lean `String`; the JS falsiness test `!s` on a
  string field is `s = ""` (an absent/undefined string field behaves
  identically to `""` in every check the code performs).
- Optional fields (`baseUrl?`, `projectId?`, `timeout?`, the interaction
  `value` which the code tests against `undefined`/`null`) are `Option _`.
- JS numbers are `Int` (the code only compares values against `0`).
- A thrown `Error` is `Except.error msg`; message strings are transcribed
  verbatim from the source.
- The axios instance is a transport function `Request → Except ε ρ`
  (`ε` the transport's error detail, `ρ` the parsed response `data`);
  an operation run returns its outcome together with the list of HTTP
  requests actually issued.
-/

/-- HTTP method of a dispatched request (the client uses POST and DELETE). -/
inductive Method where
  | get
  | post
  | delete
deriving DecidableEq, Repr

/-- Item entity (`RecoItem` in `types.ts`): `item_id` required, plus
passthrough metadata the client never inspects. Attributes are kept as an
opaque association list. -/
structure RecoItem where
  item_id : String
  attributes : List (String × String)
  available : Option Bool
  created_at : Option String
deriving DecidableEq, Repr

/-- User entity (`RecoUser` in `types.ts`): `user_id` required, plus
passthrough metadata. -/
structure RecoUser where
  user_id : String
  attributes : List (String × String)
  created_at : Option String
deriving DecidableEq, Repr

/-- Interaction entity (`RecoInteraction` in `types.ts`). `value` is
`Option Int`: `none` models the `undefined`/`null` the validator tests for. -/
structure RecoInteraction where
  user_id : String
  item_id : String
  type : String
  value : Option Int
  timestamp : Option String
  context : List (String × String)
deriving DecidableEq, Repr

/-- Recommendation request (`RecommendationRequest` in `types.ts`):
`user_id` required, everything else passed through opaquely. -/
structure RecommendationRequest where
  user_id : String
  limit : Option Int
  filter_expressions : Option (List String)
  cursor : Option String
deriving DecidableEq, Repr

/-- JSON body of a dispatched request, mirroring the wire shapes of
`RecoClient.ts`: singular payloads go verbatim, bulk payloads are wrapped
under a named key (`interactions` / `items` / `users` / `item_ids` /
`user_ids`), DELETE requests carry no body. -/
inductive ReqBody where
  | empty
  | interaction (i : RecoInteraction)
  | interactions (xs : List RecoInteraction)
  | item (x : RecoItem)
  | items (xs : List RecoItem)
  | user (u : RecoUser)
  | users (us : List RecoUser)
  | itemIds (ids : List String)
  | userIds (ids : List String)
  | recRequest (r : RecommendationRequest)
deriving DecidableEq, Repr

/-- One HTTP request as handed to the axios transport. -/
structure Request where
  method : Method
  path : String
  body : ReqBody
deriving DecidableEq, Repr

/-- Constructor options (`RecoOptions` in `types.ts`). -/
structure RecoOptions where
  apiKey : String
  projectId : Option String
  baseUrl : Option String
  timeout : Option Int
deriving DecidableEq, Repr

/-- Resolved connection configuration held by the client: the values passed
to `axios.create` in the constructor. -/
structure ClientConfig where
  baseURL : String
  timeout : Int
  apiKey : String
deriving DecidableEq, Repr

/-- JS truthiness of an optional string: `undefined` and `""` are falsy. -/
def strTruthy : Option String → Bool
  | none => false
  | some s => decide (s ≠ "")

/-- JS truthiness of an optional number: `undefined` and `0` are falsy
(any nonzero number, negative included, is truthy). -/
def numTruthy : Option Int → Bool
  | none => false
  | some n => decide (n ≠ 0)

/-- The fixed default host of the constructor. -/
def defaultHost : String := "https://reco-api.mioren.com"

/-- Endpoint resolution of the constructor: a truthy `baseUrl` is used
verbatim; otherwise a truthy `projectId` yields the composed project URL;
otherwise, the constructor throws. -/
def resolveBaseURL (options : RecoOptions) : Except String String :=
  if strTruthy options.baseUrl then
    Except.ok (options.baseUrl.getD "")
  else if strTruthy options.projectId then
    Except.ok (defaultHost ++ "/api/v1/projects/" ++ options.projectId.getD "")
  else
    Except.error "RecoSDK: \x27projectId\x27 is required in options unless \x27baseUrl\x27 is explicitly provided."

/-- Timeout resolution: `options.timeout || 10000`. -/
def resolveTimeout (timeout : Option Int) : Int :=
  if numTruthy timeout then timeout.getD 0 else 10000

/-- The `RecoClient` constructor: resolves the endpoint (throwing when
neither a truthy `baseUrl` nor a truthy `projectId` is available) and builds
the axios configuration. No network I/O happens here. -/
def mkRecoClient (options : RecoOptions) : Except String ClientConfig :=
  match resolveBaseURL options with
  | Except.error m => Except.error m
  | Except.ok b => Except.ok ⟨b, resolveTimeout options.timeout, options.apiKey⟩

/-- `validateItem`: `item_id` must be truthy. -/
def validateItem (item : RecoItem) : Except String Unit :=
  if item.item_id = "" then
    Except.error "RecoSDK: Validation Error - \x27item_id\x27 is required for item operations."
  else
    Except.ok ()

/-- `validateUser`: `user_id` must be truthy. -/
def validateUser (user : RecoUser) : Except String Unit :=
  if user.user_id = "" then
    Except.error "RecoSDK: Validation Error - \x27user_id\x27 is required for user operations."
  else
    Except.ok ()

/-- `validateInteraction`: required fields truthy, `value` present, and the
impression/value cross-field invariant, checked in source order. -/
def validateInteraction (interaction : RecoInteraction) : Except String Unit :=
  if interaction.user_id = "" then
    Except.error "RecoSDK: Validation Error - \x27user_id\x27 is required for interactions."
  else if interaction.item_id = "" then
    Except.error "RecoSDK: Validation Error - \x27item_id\x27 is required for interactions."
  else if interaction.type = "" then
    Except.error "RecoSDK: Validation Error - \x27type\x27 is required for interactions."
  else
    match interaction.value with
    | none =>
      Except.error "RecoSDK: Validation Error - \x27value\x27 is required for interactions."
    | some v =>
      if interaction.type = "impression" ∧ v ≠ 0 then
        Except.error "RecoSDK: Validation Error - Interaction type \x27impression\x27 must have value 0."
      else
        Except.ok ()

/-- `xs.forEach(x => validate(x))`: validates every element, first failure
wins, exactly as a forEach of a throwing validator behaves. -/
def validateEach (f : α → Except String Unit) : List α → Except String Unit
  | [] => Except.ok ()
  | x :: xs =>
    match f x with
    | Except.error m => Except.error m
    | Except.ok _ => validateEach f xs

/-- A batch argument as the dynamically-typed caller may pass it: a real
array, or any non-array value (the case `Array.isArray` rejects). -/
inductive BatchArg (α : Type) where
  | array (xs : List α)
  | nonArray
deriving DecidableEq, Repr

/-- `getRecommendations`, pure part: validation plus the single request it
dispatches on success. -/
def getRecommendationsReq (request : RecommendationRequest) : Except String Request :=
  if request.user_id = "" then
    Except.error "RecoSDK: Validation Error - \x27user_id\x27 is required for recommendations."
  else
    Except.ok ⟨Method.post, "/recommendations", ReqBody.recRequest request⟩

/-- `trackInteraction`, pure part. -/
def trackInteractionReq (interaction : RecoInteraction) : Except String Request :=
  match validateInteraction interaction with
  | Except.error m => Except.error m
  | Except.ok _ => Except.ok ⟨Method.post, "/interactions", ReqBody.interaction interaction⟩

/-- `batchTrackInteractions`, pure part: array check, per-element
validation, then one bulk request. -/
def batchTrackInteractionsReq (arg : BatchArg RecoInteraction) : Except String Request :=
  match arg with
  | BatchArg.nonArray =>
    Except.error "RecoSDK: Validation Error - batchTrackInteractions expects an array."
  | BatchArg.array xs =>
    match validateEach validateInteraction xs with
    | Except.error m => Except.error m
    | Except.ok _ => Except.ok ⟨Method.post, "/interactions/bulk", ReqBody.interactions xs⟩

/-- `upsertItem`, pure part. -/
def upsertItemReq (item : RecoItem) : Except String Request :=
  match validateItem item with
  | Except.error m => Except.error m
  | Except.ok _ => Except.ok ⟨Method.post, "/items", ReqBody.item item⟩

/-- `batchUpsertItems`, pure part. -/
def batchUpsertItemsReq (arg : BatchArg RecoItem) : Except String Request :=
  match arg with
  | BatchArg.nonArray =>
    Except.error "RecoSDK: Validation Error - batchUpsertItems expects an array."
  | BatchArg.array xs =>
    match validateEach validateItem xs with
    | Except.error m => Except.error m
    | Except.ok _ => Except.ok ⟨Method.post, "/items/bulk", ReqBody.items xs⟩

/-- `deleteItem`, pure part. -/
def deleteItemReq (itemId : String) : Except String Request :=
  if itemId = "" then
    Except.error "RecoSDK: Validation Error - itemId is required."
  else
    Except.ok ⟨Method.delete, "/items/" ++ itemId, ReqBody.empty⟩

/-- `batchDeleteItems`, pure part: the argument is `Option (List String)`
(`none` models `undefined`/`null`, which the `!itemIds` guard rejects). -/
def batchDeleteItemsReq (itemIds : Option (List String)) : Except String Request :=
  match itemIds with
  | none =>
    Except.error "RecoSDK: Validation Error - itemIds array is required and cannot be empty."
  | some xs =>
    if xs.length = 0 then
      Except.error "RecoSDK: Validation Error - itemIds array is required and cannot be empty."
    else
      Except.ok ⟨Method.post, "/items/bulk-delete", ReqBody.itemIds xs⟩

/-- `upsertUser`, pure part. -/
def upsertUserReq (user : RecoUser) : Except String Request :=
  match validateUser user with
  | Except.error m => Except.error m
  | Except.ok _ => Except.ok ⟨Method.post, "/users", ReqBody.user user⟩

/-- `batchUpsertUsers`, pure part. -/
def batchUpsertUsersReq (arg : BatchArg RecoUser) : Except String Request :=
  match arg with
  | BatchArg.nonArray =>
    Except.error "RecoSDK: Validation Error - batchUpsertUsers expects an array."
  | BatchArg.array xs =>
    match validateEach validateUser xs with
    | Except.error m => Except.error m
    | Except.ok _ => Except.ok ⟨Method.post, "/users/bulk", ReqBody.users xs⟩

/-- `deleteUser`, pure part. -/
def deleteUserReq (userId : String) : Except String Request :=
  if userId = "" then
    Except.error "RecoSDK: Validation Error - userId is required."
  else
    Except.ok ⟨Method.delete, "/users/" ++ userId, ReqBody.empty⟩

/-- `batchDeleteUsers`, pure part. -/
def batchDeleteUsersReq (userIds : Option (List String)) : Except String Request :=
  match userIds with
  | none =>
    Except.error "RecoSDK: Validation Error - userIds array is required and cannot be empty."
  | some xs =>
    if xs.length = 0 then
      Except.error "RecoSDK: Validation Error - userIds array is required and cannot be empty."
    else
      Except.ok ⟨Method.post, "/users/bulk-delete", ReqBody.userIds xs⟩

/-- Outcome of a full operation run: a synchronous validation error (thrown
before any network call), the transport's failure propagated as-is, or the
transport's parsed response. -/
inductive SdkOutcome (ε ρ : Type) where
  | validationError (msg : String)
  | transportError (e : ε)
  | ok (r : ρ)
deriving DecidableEq, Repr

/-- Run an operation against a transport: validation failure issues no
request; otherwise exactly the one validated request is issued and the
transport's answer — error or data — is returned untouched. The second
component lists the HTTP requests actually issued. -/
def runOp (t : Request → Except ε ρ) (pre : Except String Request) :
    SdkOutcome ε ρ × List Request :=
  match pre with
  | Except.error m => (SdkOutcome.validationError m, [])
  | Except.ok req =>
    match t req with
    | Except.error e => (SdkOutcome.transportError e, [req])
    | Except.ok r => (SdkOutcome.ok r, [req])

/-- `getRecommendations` run against a transport. -/
def getRecommendationsRun (t : Request → Except ε ρ) (request : RecommendationRequest) :
    SdkOutcome ε ρ × List Request :=
  runOp t (getRecommendationsReq request)

/-- `trackInteraction` run against a transport. -/
def trackInteractionRun (t : Request → Except ε ρ) (interaction : RecoInteraction) :
    SdkOutcome ε ρ × List Request :=
  runOp t (trackInteractionReq interaction)

/-- `batchTrackInteractions` run against a transport. -/
def batchTrackInteractionsRun (t : Request → Except ε ρ) (arg : BatchArg RecoInteraction) :
    SdkOutcome ε ρ × List Request :=
  runOp t (batchTrackInteractionsReq arg)

/-- `upsertItem` run against a transport. -/
def upsertItemRun (t : Request → Except ε ρ) (item : RecoItem) :
    SdkOutcome ε ρ × List Request :=
  runOp t (upsertItemReq item)

/-- `batchUpsertItems` run against a transport. -/
def batchUpsertItemsRun (t : Request → Except ε ρ) (arg : BatchArg RecoItem) :
    SdkOutcome ε ρ × List Request :=
  runOp t (batchUpsertItemsReq arg)

/-- `deleteItem` run against a transport. -/
def deleteItemRun (t : Request → Except ε ρ) (itemId : String) :
    SdkOutcome ε ρ × List Request :=
  runOp t (deleteItemReq itemId)

/-- `batchDeleteItems` run against a transport. -/
def batchDeleteItemsRun (t : Request → Except ε ρ) (itemIds : Option (List String)) :
    SdkOutcome ε ρ × List Request :=
  runOp t (batchDeleteItemsReq itemIds)

/-- `upsertUser` run against a transport. -/
def upsertUserRun (t : Request → Except ε ρ) (user : RecoUser) :
    SdkOutcome ε ρ × List Request :=
  runOp t (upsertUserReq user)

/-- `batchUpsertUsers` run against a transport. -/
def batchUpsertUsersRun (t : Request → Except ε ρ) (arg : BatchArg RecoUser) :
    SdkOutcome ε ρ × List Request :=
  runOp t (batchUpsertUsersReq arg)

/-- `deleteUser` run against a transport. -/
def deleteUserRun (t : Request → Except ε ρ) (userId : String) :
    SdkOutcome ε ρ × List Request :=
  runOp t (deleteUserReq userId)

/-- `batchDeleteUsers` run against a transport. -/
def batchDeleteUsersRun (t : Request → Except ε ρ) (userIds : Option (List String)) :
    SdkOutcome ε ρ × List Request :=
  runOp t (batchDeleteUsersReq userIds)

/-- One invocation of any of the eleven public operations, with its
argument. Used to quantify over "every operation". -/
inductive OpCall where
  | getRecommendations (r : RecommendationRequest)
  | trackInteraction (i : RecoInteraction)
  | batchTrackInteractions (a : BatchArg RecoInteraction)
  | upsertItem (x : RecoItem)
  | batchUpsertItems (a : BatchArg RecoItem)
  | deleteItem (id : String)
  | batchDeleteItems (ids : Option (List String))
  | upsertUser (u : RecoUser)
  | batchUpsertUsers (a : BatchArg RecoUser)
  | deleteUser (id : String)
  | batchDeleteUsers (ids : Option (List String))
deriving DecidableEq, Repr

/-- The pure validate-and-build-request part of each operation. -/
def opRequest : OpCall → Except String Request
  | OpCall.getRecommendations r => getRecommendationsReq r
  | OpCall.trackInteraction i => trackInteractionReq i
  | OpCall.batchTrackInteractions a => batchTrackInteractionsReq a
  | OpCall.upsertItem x => upsertItemReq x
  | OpCall.batchUpsertItems a => batchUpsertItemsReq a
  | OpCall.deleteItem id => deleteItemReq id
  | OpCall.batchDeleteItems ids => batchDeleteItemsReq ids
  | OpCall.upsertUser u => upsertUserReq u
  | OpCall.batchUpsertUsers a => batchUpsertUsersReq a
  | OpCall.deleteUser id => deleteUserReq id
  | OpCall.batchDeleteUsers ids => batchDeleteUsersReq ids

/-- Run any operation against a transport. -/
def runCall (t : Request → Except ε ρ) (c : OpCall) : SdkOutcome ε ρ × List Request :=
  runOp t (opRequest c)

/-- Any `Except String Unit` is `ok ()` or some error. -/
theorem exceptUnit_split (e : Except String Unit) :
    e = Except.ok () ∨ ∃ m, e = Except.error m := by
  cases e with
  | error m => exact Or.inr ⟨m, rfl⟩
  | ok u => cases u; exact Or.inl rfl

/-- `validateEach` succeeds exactly when every element passes the singular
validator. -/
theorem validateEach_ok_iff (f : α → Except String Unit) (xs : List α) :
    validateEach f xs = Except.ok () ↔ ∀ x ∈ xs, f x = Except.ok () := by
  induction xs with
  | nil => simp [validateEach]
  | cons y ys ih =>
    constructor
    · intro h x hx
      cases hf : f y with
      | error m => rw [validateEach, hf] at h; exact absurd h (by simp)
      | ok u =>
        cases u
        rw [validateEach, hf] at h
        rcases List.mem_cons.mp hx with hxy | hxs
        · rw [hxy, hf]
        · exact ih.mp h x hxs
    · intro h
      rw [validateEach]
      rw [h y (List.mem_cons_self y ys)]
      exact ih.mpr fun x hx => h x (List.mem_cons_of_mem y hx)

/-- A failing element makes `validateEach` fail. -/
theorem validateEach_error_of_mem (f : α → Except String Unit) (xs : List α)
    (x : α) (hx : x ∈ xs) (m : String) (hm : f x = Except.error m) :
    ∃ m2, validateEach f xs = Except.error m2 := by
  rcases exceptUnit_split (validateEach f xs) with h | h
  · exact absurd ((validateEach_ok_iff f xs).mp h x hx) (by simp [hm])
  · exact h

/-- A validation failure runs with no request issued. -/
theorem runOp_of_validationError {ε ρ : Type} (t : Request → Except ε ρ)
    {pre : Except String Request} {m : String} (h : pre = Except.error m) :
    runOp t pre = (SdkOutcome.validationError m, []) := by
  rw [h]; rfl

/-- A validated request that the transport answers returns the transport's
data, with exactly that one request issued. -/
theorem runOp_of_transport_ok {ε ρ : Type} {t : Request → Except ε ρ}
    {pre : Except String Request} {req : Request} {d : ρ}
    (h : pre = Except.ok req) (hd : t req = Except.ok d) :
    runOp t pre = (SdkOutcome.ok d, [req]) := by
  rw [h]; simp [runOp, hd]

/-- A validated request whose transport call fails propagates the failure,
with exactly that one request issued. -/
theorem runOp_of_transport_error {ε ρ : Type} {t : Request → Except ε ρ}
    {pre : Except String Request} {req : Request} {e : ε}
    (h : pre = Except.ok req) (he : t req = Except.error e) :
    runOp t pre = (SdkOutcome.transportError e, [req]) := by
  rw [h]; simp [runOp, he]

/-- A validated request is issued exactly once, whatever the transport does. -/
theorem runOp_requests_of_ok {ε ρ : Type} (t : Request → Except ε ρ)
    {pre : Except String Request} {req : Request} (h : pre = Except.ok req) :
    (runOp t pre).2 = [req] := by
  rw [h]; cases ht : t req <;> simp [runOp, ht]

/-- C3: constructing the client with neither `projectId` nor `baseUrl`
raises the configuration error, so no client configuration is produced. -/
theorem construction_without_endpoint_fails (apiKey : String) (timeout : Option Int) :
    mkRecoClient ⟨apiKey, none, none, timeout⟩ =
      Except.error "RecoSDK: \x27projectId\x27 is required in options unless \x27baseUrl\x27 is explicitly provided." := by
  rfl

/-- C4, counterexample to the claim as stated: `baseUrl = ""` is supplied
but is not used verbatim — with `projectId = "p1"` the endpoint is the
composed project URL (which differs from the supplied `baseUrl` value);
and a supplied empty `projectId` with no `baseUrl` makes construction
throw instead of composing an endpoint. -/
theorem endpoint_resolution_counterexample :
    mkRecoClient ⟨"k", some "p1", some "", none⟩ =
      Except.ok ⟨defaultHost ++ "/api/v1/projects/" ++ "p1", 10000, "k"⟩ ∧
    defaultHost ++ "/api/v1/projects/" ++ "p1" ≠ "" ∧
    mkRecoClient ⟨"k", some "", none, none⟩ =
      Except.error "RecoSDK: \x27projectId\x27 is required in options unless \x27baseUrl\x27 is explicitly provided." :=
  ⟨rfl, by decide, rfl⟩

/-- C4 (amended): a supplied NON-EMPTY `baseUrl` is used verbatim as the
effective endpoint, taking precedence over any `projectId`; otherwise a
supplied non-empty `projectId` yields the fixed default host followed by
`/api/v1/projects/` and the project identifier. -/
theorem endpoint_resolution (o : RecoOptions) :
    (∀ s, o.baseUrl = some s → s ≠ "" →
      mkRecoClient o = Except.ok ⟨s, resolveTimeout o.timeout, o.apiKey⟩) ∧
    (∀ p, (o.baseUrl = none ∨ o.baseUrl = some "") → o.projectId = some p → p ≠ "" →
      mkRecoClient o =
        Except.ok ⟨defaultHost ++ "/api/v1/projects/" ++ p, resolveTimeout o.timeout, o.apiKey⟩) := by
  constructor
  · intro s hs hne
    simp [mkRecoClient, resolveBaseURL, hs, strTruthy, hne]
  · intro p hb hp hpne
    have h1 : strTruthy o.baseUrl = false := by
      rcases hb with h | h <;> simp [strTruthy, h]
    have h2 : strTruthy (some p) = true := by simp [strTruthy, hpne]
    simp [mkRecoClient, resolveBaseURL, h1, hp, h2]

/-- C4 witness: a client built with `baseUrl = "https://custom-api.example.com"`
and `projectId = "p1"` gets the `baseUrl` value as endpoint, and one built
from `projectId = "p1"` alone gets the composed project endpoint. -/
theorem endpoint_resolution_witness :
    mkRecoClient ⟨"k", some "p1", some "https://custom-api.example.com", none⟩ =
      Except.ok ⟨"https://custom-api.example.com", resolveTimeout none, "k"⟩ ∧
    mkRecoClient ⟨"k", some "p1", none, none⟩ =
      Except.ok ⟨defaultHost ++ "/api/v1/projects/" ++ "p1", resolveTimeout none, "k"⟩ :=
  ⟨(endpoint_resolution ⟨"k", some "p1", some "https://custom-api.example.com", none⟩).1
      "https://custom-api.example.com" rfl (by decide),
    (endpoint_resolution ⟨"k", some "p1", none, none⟩).2 "p1" (Or.inl rfl) rfl (by decide)⟩

/-- C5, counterexample to the claim as stated: a supplied negative timeout
is kept verbatim (`options.timeout || 10000` only replaces falsy values),
not replaced by the 10000 ms default. -/
theorem timeout_resolution_counterexample :
    mkRecoClient ⟨"k", some "p1", none, some (-5)⟩ =
      Except.ok ⟨defaultHost ++ "/api/v1/projects/" ++ "p1", -5, "k"⟩ ∧
    (-5 : Int) ≠ 10000 :=
  ⟨rfl, by decide⟩

/-- C5 (amended): the resolved timeout is the caller's value when it is
present and nonzero (negative values included), and the fixed 10000 ms
default when the caller's value is absent or zero. -/
theorem timeout_resolution :
    (∀ (o : RecoOptions) (cfg : ClientConfig), mkRecoClient o = Except.ok cfg →
      cfg.timeout = resolveTimeout o.timeout) ∧
    (∀ v : Int, v ≠ 0 → resolveTimeout (some v) = v) ∧
    resolveTimeout none = 10000 ∧
    resolveTimeout (some 0) = 10000 := by
  refine ⟨?_, ?_, rfl, rfl⟩
  · intro o cfg h
    unfold mkRecoClient at h
    revert h
    cases resolveBaseURL o with
    | error m => intro h; exact absurd h (by simp)
    | ok b => intro h; injection h with h2; rw [← h2]
  · intro v hv
    simp [resolveTimeout, numTruthy, hv]

/-- C1, counterexample to the claim as stated: an impression interaction
with nonzero value but empty `user_id` is rejected with the `user_id`
message, not the error naming the impression/value conflict (the validator
checks field presence first). -/
theorem impression_nonzero_rejected_counterexample :
    trackInteractionReq ⟨"", "item-1", "impression", some 1, none, []⟩ =
      Except.error "RecoSDK: Validation Error - \x27user_id\x27 is required for interactions." ∧
    ("RecoSDK: Validation Error - \x27user_id\x27 is required for interactions." : String) ≠
      "RecoSDK: Validation Error - Interaction type \x27impression\x27 must have value 0." :=
  ⟨rfl, by decide⟩

/-- C1 (amended): for every interaction with type `"impression"` and a
present nonzero value, `trackInteraction` raises a validation error and
issues no HTTP request; when the interaction's `user_id` and `item_id` are
non-empty, that error is the one naming the impression/value conflict. -/
theorem impression_nonzero_rejected (i : RecoInteraction) (v : Int)
    (htype : i.type = "impression") (hval : i.value = some v) (hv : v ≠ 0) :
    (∃ m, trackInteractionReq i = Except.error m) ∧
    (∀ (ε ρ : Type) (t : Request → Except ε ρ), (trackInteractionRun t i).2 = []) ∧
    (i.user_id ≠ "" → i.item_id ≠ "" →
      trackInteractionReq i =
        Except.error "RecoSDK: Validation Error - Interaction type \x27impression\x27 must have value 0.") := by
  have hterr : ∃ m, validateInteraction i = Except.error m := by
    by_cases hu : i.user_id = ""
    · exact ⟨"RecoSDK: Validation Error - \x27user_id\x27 is required for interactions.",
        by simp [validateInteraction, hu]⟩
    · by_cases hi : i.item_id = ""
      · exact ⟨"RecoSDK: Validation Error - \x27item_id\x27 is required for interactions.",
          by simp [validateInteraction, hu, hi]⟩
      · refine ⟨"RecoSDK: Validation Error - Interaction type \x27impression\x27 must have value 0.", ?_⟩
        have ht : i.type ≠ "" := by rw [htype]; decide
        simp [validateInteraction, hu, hi, ht, hval, htype, hv]
  obtain ⟨m, hm⟩ := hterr
  refine ⟨⟨m, by simp [trackInteractionReq, hm]⟩, ?_, ?_⟩
  · intro ε ρ t
    have hreq : trackInteractionReq i = Except.error m := by simp [trackInteractionReq, hm]
    rw [trackInteractionRun, runOp_of_validationError t hreq]
  · intro hu hi
    have ht : i.type ≠ "" := by rw [htype]; decide
    simp [trackInteractionReq, validateInteraction, hu, hi, ht, hval, htype, hv]

/-- C1 witness at a concrete impression interaction with value 5. -/
theorem impression_nonzero_rejected_witness :
    (∃ m, trackInteractionReq ⟨"u1", "i1", "impression", some 5, none, []⟩ = Except.error m) ∧
    (∀ (ε ρ : Type) (t : Request → Except ε ρ),
      (trackInteractionRun t ⟨"u1", "i1", "impression", some 5, none, []⟩).2 = []) ∧
    (("u1" : String) ≠ "" → ("i1" : String) ≠ "" →
      trackInteractionReq ⟨"u1", "i1", "impression", some 5, none, []⟩ =
        Except.error "RecoSDK: Validation Error - Interaction type \x27impression\x27 must have value 0.") :=
  impression_nonzero_rejected ⟨"u1", "i1", "impression", some 5, none, []⟩ 5 rfl rfl (by decide)

/-- C6: an interaction with non-empty `user_id`, `item_id`, type
`"impression"` and value `0` passes validation, and `trackInteraction`
issues exactly one POST to `/interactions` whose body is the interaction
itself, unmodified. -/
theorem impression_zero_tracked (i : RecoInteraction)
    (hu : i.user_id ≠ "") (hi : i.item_id ≠ "") (htype : i.type = "impression")
    (hval : i.value = some 0) :
    trackInteractionReq i = Except.ok ⟨Method.post, "/interactions", ReqBody.interaction i⟩ ∧
    ∀ (ε ρ : Type) (t : Request → Except ε ρ),
      (trackInteractionRun t i).2 = [⟨Method.post, "/interactions", ReqBody.interaction i⟩] := by
  have ht : i.type ≠ "" := by rw [htype]; decide
  have hok : trackInteractionReq i =
      Except.ok ⟨Method.post, "/interactions", ReqBody.interaction i⟩ := by
    simp [trackInteractionReq, validateInteraction, hu, hi, ht, hval]
  refine ⟨hok, ?_⟩
  intro ε ρ t
  rw [trackInteractionRun, runOp_requests_of_ok t hok]

/-- C6 witness at a concrete impression interaction with value 0. -/
theorem impression_zero_tracked_witness :
    trackInteractionReq ⟨"u1", "i1", "impression", some 0, none, []⟩ =
      Except.ok ⟨Method.post, "/interactions",
        ReqBody.interaction ⟨"u1", "i1", "impression", some 0, none, []⟩⟩ ∧
    ∀ (ε ρ : Type) (t : Request → Except ε ρ),
      (trackInteractionRun t ⟨"u1", "i1", "impression", some 0, none, []⟩).2 =
        [⟨Method.post, "/interactions",
          ReqBody.interaction ⟨"u1", "i1", "impression", some 0, none, []⟩⟩] :=
  impression_zero_tracked ⟨"u1", "i1", "impression", some 0, none, []⟩
    (by decide) (by decide) rfl rfl

/-- C2: each batch operation (`batchUpsertItems`, `batchUpsertUsers`,
`batchTrackInteractions`) rejects a non-array argument with a validation
error and no request; an array argument yields the single bulk request
exactly when every element passes the corresponding singular validator;
and any element failing its singular rule means no HTTP request is issued. -/
theorem batch_validation_contract :
    (∀ (ε ρ : Type) (t : Request → Except ε ρ),
      batchUpsertItemsRun t BatchArg.nonArray =
        (SdkOutcome.validationError "RecoSDK: Validation Error - batchUpsertItems expects an array.", []) ∧
      batchUpsertUsersRun t BatchArg.nonArray =
        (SdkOutcome.validationError "RecoSDK: Validation Error - batchUpsertUsers expects an array.", []) ∧
      batchTrackInteractionsRun t BatchArg.nonArray =
        (SdkOutcome.validationError "RecoSDK: Validation Error - batchTrackInteractions expects an array.", [])) ∧
    (∀ xs : List RecoItem,
      batchUpsertItemsReq (BatchArg.array xs) =
          Except.ok ⟨Method.post, "/items/bulk", ReqBody.items xs⟩ ↔
        ∀ x ∈ xs, validateItem x = Except.ok ()) ∧
    (∀ us : List RecoUser,
      batchUpsertUsersReq (BatchArg.array us) =
          Except.ok ⟨Method.post, "/users/bulk", ReqBody.users us⟩ ↔
        ∀ u ∈ us, validateUser u = Except.ok ()) ∧
    (∀ zs : List RecoInteraction,
      batchTrackInteractionsReq (BatchArg.array zs) =
          Except.ok ⟨Method.post, "/interactions/bulk", ReqBody.interactions zs⟩ ↔
        ∀ z ∈ zs, validateInteraction z = Except.ok ()) ∧
    (∀ (xs : List RecoItem) (x : RecoItem), x ∈ xs →
      (∃ m, validateItem x = Except.error m) →
      ∀ (ε ρ : Type) (t : Request → Except ε ρ),
        (batchUpsertItemsRun t (BatchArg.array xs)).2 = []) ∧
    (∀ (us : List RecoUser) (u : RecoUser), u ∈ us →
      (∃ m, validateUser u = Except.error m) →
      ∀ (ε ρ : Type) (t : Request → Except ε ρ),
        (batchUpsertUsersRun t (BatchArg.array us)).2 = []) ∧
    (∀ (zs : List RecoInteraction) (z : RecoInteraction), z ∈ zs →
      (∃ m, validateInteraction z = Except.error m) →
      ∀ (ε ρ : Type) (t : Request → Except ε ρ),
        (batchTrackInteractionsRun t (BatchArg.array zs)).2 = []) := by
  refine ⟨fun ε ρ t => ⟨rfl, rfl, rfl⟩, ?_, ?_, ?_, ?_, ?_, ?_⟩
  · intro xs
    rcases exceptUnit_split (validateEach validateItem xs) with h | ⟨m, h⟩
    · constructor
      · intro _; exact (validateEach_ok_iff validateItem xs).mp h
      · intro _; simp [batchUpsertItemsReq, h]
    · constructor
      · intro hok
        rw [show batchUpsertItemsReq (BatchArg.array xs) = Except.error m by
          simp [batchUpsertItemsReq, h]] at hok
        exact absurd hok (by simp)
      · intro hall
        have h2 := (validateEach_ok_iff validateItem xs).mpr hall
        rw [h2] at h
        simp at h
  · intro us
    rcases exceptUnit_split (validateEach validateUser us) with h | ⟨m, h⟩
    · constructor
      · intro _; exact (validateEach_ok_iff validateUser us).mp h
      · intro _; simp [batchUpsertUsersReq, h]
    · constructor
      · intro hok
        rw [show batchUpsertUsersReq (BatchArg.array us) = Except.error m by
          simp [batchUpsertUsersReq, h]] at hok
        exact absurd hok (by simp)
      · intro hall
        have h2 := (validateEach_ok_iff validateUser us).mpr hall
        rw [h2] at h
        simp at h
  · intro zs
    rcases exceptUnit_split (validateEach validateInteraction zs) with h | ⟨m, h⟩
    · constructor
      · intro _; exact (validateEach_ok_iff validateInteraction zs).mp h
      · intro _; simp [batchTrackInteractionsReq, h]
    · constructor
      · intro hok
        rw [show batchTrackInteractionsReq (BatchArg.array zs) = Except.error m by
          simp [batchTrackInteractionsReq, h]] at hok
        exact absurd hok (by simp)
      · intro hall
        have h2 := (validateEach_ok_iff validateInteraction zs).mpr hall
        rw [h2] at h
        simp at h
  · intro xs x hx hex ε ρ t
    obtain ⟨m, hm⟩ := hex
    obtain ⟨m2, h2⟩ := validateEach_error_of_mem validateItem xs x hx m hm
    have hreq : batchUpsertItemsReq (BatchArg.array xs) = Except.error m2 := by
      simp [batchUpsertItemsReq, h2]
    rw [batchUpsertItemsRun, runOp_of_validationError t hreq]
  · intro us u hu hex ε ρ t
    obtain ⟨m, hm⟩ := hex
    obtain ⟨m2, h2⟩ := validateEach_error_of_mem validateUser us u hu m hm
    have hreq : batchUpsertUsersReq (BatchArg.array us) = Except.error m2 := by
      simp [batchUpsertUsersReq, h2]
    rw [batchUpsertUsersRun, runOp_of_validationError t hreq]
  · intro zs z hz hex ε ρ t
    obtain ⟨m, hm⟩ := hex
    obtain ⟨m2, h2⟩ := validateEach_error_of_mem validateInteraction zs z hz m hm
    have hreq : batchTrackInteractionsReq (BatchArg.array zs) = Except.error m2 := by
      simp [batchTrackInteractionsReq, h2]
    rw [batchTrackInteractionsRun, runOp_of_validationError t hreq]

/-- C7: `batchDeleteItems` / `batchDeleteUsers` reject a missing
(`undefined`) argument and an empty array with the validation error citing
the required non-empty array, issuing no request; a non-empty id array
yields exactly one POST to the bulk-delete path with the array wrapped
under `item_ids` (respectively `user_ids`). -/
theorem batch_delete_contract :
    (∀ (ε ρ : Type) (t : Request → Except ε ρ),
      batchDeleteItemsRun t none =
        (SdkOutcome.validationError "RecoSDK: Validation Error - itemIds array is required and cannot be empty.", []) ∧
      batchDeleteItemsRun t (some []) =
        (SdkOutcome.validationError "RecoSDK: Validation Error - itemIds array is required and cannot be empty.", []) ∧
      batchDeleteUsersRun t none =
        (SdkOutcome.validationError "RecoSDK: Validation Error - userIds array is required and cannot be empty.", []) ∧
      batchDeleteUsersRun t (some []) =
        (SdkOutcome.validationError "RecoSDK: Validation Error - userIds array is required and cannot be empty.", [])) ∧
    (∀ ids : List String, ids ≠ [] →
      batchDeleteItemsReq (some ids) =
        Except.ok ⟨Method.post, "/items/bulk-delete", ReqBody.itemIds ids⟩ ∧
      batchDeleteUsersReq (some ids) =
        Except.ok ⟨Method.post, "/users/bulk-delete", ReqBody.userIds ids⟩ ∧
      ∀ (ε ρ : Type) (t : Request → Except ε ρ),
        (batchDeleteItemsRun t (some ids)).2 =
          [⟨Method.post, "/items/bulk-delete", ReqBody.itemIds ids⟩] ∧
        (batchDeleteUsersRun t (some ids)).2 =
          [⟨Method.post, "/users/bulk-delete", ReqBody.userIds ids⟩]) := by
  constructor
  · intro ε ρ t; exact ⟨rfl, rfl, rfl, rfl⟩
  · intro ids h
    have hlen : ¬ ids.length = 0 := by simpa [List.length_eq_zero] using h
    have h1 : batchDeleteItemsReq (some ids) =
        Except.ok ⟨Method.post, "/items/bulk-delete", ReqBody.itemIds ids⟩ := by
      simp [batchDeleteItemsReq, hlen]
    have h2 : batchDeleteUsersReq (some ids) =
        Except.ok ⟨Method.post, "/users/bulk-delete", ReqBody.userIds ids⟩ := by
      simp [batchDeleteUsersReq, hlen]
    exact ⟨h1, h2, fun ε ρ t =>
      ⟨by rw [batchDeleteItemsRun, runOp_requests_of_ok t h1],
       by rw [batchDeleteUsersRun, runOp_requests_of_ok t h2]⟩⟩

/-- C8: `getRecommendations` with a non-empty `user_id` issues exactly one
POST to `/recommendations` with the request object as body and returns the
transport's parsed response unchanged; with a missing/empty `user_id` it
raises the validation error and issues no request. -/
theorem get_recommendations_roundtrip :
    (∀ r : RecommendationRequest, r.user_id ≠ "" →
      getRecommendationsReq r =
        Except.ok ⟨Method.post, "/recommendations", ReqBody.recRequest r⟩ ∧
      ∀ (ε ρ : Type) (t : Request → Except ε ρ) (d : ρ),
        t ⟨Method.post, "/recommendations", ReqBody.recRequest r⟩ = Except.ok d →
        getRecommendationsRun t r =
          (SdkOutcome.ok d, [⟨Method.post, "/recommendations", ReqBody.recRequest r⟩])) ∧
    (∀ r : RecommendationRequest, r.user_id = "" →
      ∀ (ε ρ : Type) (t : Request → Except ε ρ),
        getRecommendationsRun t r =
          (SdkOutcome.validationError "RecoSDK: Validation Error - \x27user_id\x27 is required for recommendations.", [])) := by
  constructor
  · intro r hr
    have h1 : getRecommendationsReq r =
        Except.ok ⟨Method.post, "/recommendations", ReqBody.recRequest r⟩ := by
      simp [getRecommendationsReq, hr]
    refine ⟨h1, ?_⟩
    intro ε ρ t d hd
    rw [getRecommendationsRun, runOp_of_transport_ok h1 hd]
  · intro r hr ε ρ t
    have h1 : getRecommendationsReq r =
        Except.error "RecoSDK: Validation Error - \x27user_id\x27 is required for recommendations." := by
      simp [getRecommendationsReq, hr]
    rw [getRecommendationsRun, runOp_of_validationError t h1]

/-- C9: for every operation that passes validation, a transport failure is
propagated to the caller as the very same error value the transport raised
— not caught, wrapped, retried, or reinterpreted — and exactly the one
request was issued. -/
theorem transport_error_propagation (c : OpCall) (req : Request)
    (h : opRequest c = Except.ok req) :
    ∀ (ε ρ : Type) (t : Request → Except ε ρ) (e : ε), t req = Except.error e →
      runCall t c = (SdkOutcome.transportError e, [req]) := by
  intro ε ρ t e he
  rw [runCall, runOp_of_transport_error h he]

/-- C9 witness: a `deleteItem` call against a transport that fails with
`"boom"` surfaces exactly that error, having issued the one DELETE. -/
theorem transport_error_propagation_witness :
    runCall (fun _ => Except.error "boom" : Request → Except String Unit)
        (OpCall.deleteItem "item-1") =
      (SdkOutcome.transportError "boom",
        [⟨Method.delete, "/items/" ++ "item-1", ReqBody.empty⟩]) :=
  transport_error_propagation (OpCall.deleteItem "item-1")
    ⟨Method.delete, "/items/" ++ "item-1", ReqBody.empty⟩ rfl
    String Unit (fun _ => Except.error "boom") "boom" rfl

/-- C10: `deleteItem` / `deleteUser` reject an empty (or missing) id with a
validation error and no request; a non-empty id yields exactly one DELETE
to `/items/{item_id}` (respectively `/users/{user_id}`). -/
theorem delete_by_id_contract :
    (∀ (ε ρ : Type) (t : Request → Except ε ρ),
      deleteItemRun t "" =
        (SdkOutcome.validationError "RecoSDK: Validation Error - itemId is required.", []) ∧
      deleteUserRun t "" =
        (SdkOutcome.validationError "RecoSDK: Validation Error - userId is required.", [])) ∧
    (∀ s : String, s ≠ "" →
      deleteItemReq s = Except.ok ⟨Method.delete, "/items/" ++ s, ReqBody.empty⟩ ∧
      deleteUserReq s = Except.ok ⟨Method.delete, "/users/" ++ s, ReqBody.empty⟩ ∧
      ∀ (ε ρ : Type) (t : Request → Except ε ρ),
        (deleteItemRun t s).2 = [⟨Method.delete, "/items/" ++ s, ReqBody.empty⟩] ∧
        (deleteUserRun t s).2 = [⟨Method.delete, "/users/" ++ s, ReqBody.empty⟩]) := by
  constructor
  · intro ε ρ t; exact ⟨rfl, rfl⟩
  · intro s h
    have h1 : deleteItemReq s = Except.ok ⟨Method.delete, "/items/" ++ s, ReqBody.empty⟩ := by
      simp [deleteItemReq, h]
    have h2 : deleteUserReq s = Except.ok ⟨Method.delete, "/users/" ++ s, ReqBody.empty⟩ := by
      simp [deleteUserReq, h]
    exact ⟨h1, h2, fun ε ρ t =>
      ⟨by rw [deleteItemRun, runOp_requests_of_ok t h1],
       by rw [deleteUserRun, runOp_requests_of_ok t h2]⟩⟩
